import Mathlib

/-!
Shallow embedding of the RAG query pipeline of `src/streamlit_ui.py`
(functions `get_embedding`, `search_docs`, `get_ai_response`,
`process_query`) together with proofs of the spec claims.

External RPCs (embedding provider, vector store, chat-completion
provider) are modelled by an environment `Env` recording the outcome of
each outbound call: `Except.ok` carries the payload the Python code
would read off the response object, `Except.error` carries the message
of the exception the call would raise.  Every pipeline function returns
its value together with the list of outbound calls it performed, so
call-count and call-argument claims are statable.  The Python functions
catch every exception of their external calls, hence their Lean
counterparts are total functions.
-/

namespace UltraDocs

/-- A retrieved documentation row: the vector-store response records,
which expose `title` and `content` string fields. -/
structure Doc where
  title : String
  content : String
deriving DecidableEq, Repr

/-- One outbound RPC, with the arguments the code passes. -/
inductive Call where
  /-- Call openai_client.embeddings.create(model=..., input=...)` -/
  | embed (model : String) (input : String)
  /-- Call supabase.rpc(fn, \x7bquery_embedding, match_count, filter: \x7bsource\x7d\x7d).execute()` -/
  | rpc (fn : String) (query_embedding : List Rat) (match_count : Nat)
      (filterSource : String)
  /-- Call openai_client.chat.completions.create(model=..., messages=...)`;
  each message is a (role, content) pair. -/
  | chat (model : String) (messages : List (String × String))
deriving DecidableEq, Repr

/-- Outcomes of the external calls for one query, plus the optional
`LLM_MODEL` environment variable.  `embedOutcome` is the list of entries
of `response.data` (each entry's `.embedding`); `rpcOutcome` is the
`response.data` payload of the vector-store call (`none` models a `None`
payload); `chatOutcome` is the list of `response.choices` message
contents. An `Except.error` models the call raising, with the
exception's message. -/
structure Env where
  embedOutcome : Except String (List (List Rat))
  rpcOutcome : Except String (Option (List Doc))
  chatOutcome : Except String (List String)
  llmModel : Option String

/-- Function get_embedding (src/streamlit_ui.py lines 44-54): try the embedding
call and return `response.data[0].embedding`; on any exception (the call
raising, or the index into an empty `data` raising) return `[0] * 1536`. -/
def get_embedding (env : Env) (text : String) : List Rat × List Call :=
  let calls := [Call.embed "text-embedding-3-small" text]
  match env.embedOutcome with
  | .ok data =>
    match data.head? with
    | some e => (e, calls)
    | none => (List.replicate 1536 0, calls)
  | .error _ => (List.replicate 1536 0, calls)

/-- Function search_docs (src/streamlit_ui.py lines 56-74): embed the query,
call the `match_site_pages` vector-store RPC with `match_count` and the
fixed `\x7b'source': 'ultravox_docs'\x7d` filter, and return `response.data`
unchanged; on any exception of the RPC return `[]` (modelled `some []`;
`get_embedding` never raises). -/
def search_docs (env : Env) (query : String) (match_count : Nat := 5) :
    Option (List Doc) × List Call :=
  let (query_embedding, ecalls) := get_embedding env query
  let calls := ecalls ++
    [Call.rpc "match_site_pages" query_embedding match_count "ultravox_docs"]
  match env.rpcOutcome with
  | .ok data => (data, calls)
  | .error _ => (some [], calls)

/-- The fixed system message of the chat-completion call. -/
def systemPrompt : String :=
  "You are a helpful AI assistant that answers questions about Ultravox documentation. Use the provided context to answer questions accurately and concisely."

/-- The user-message template f"Context:\n\x7bcontext\x7d\n\nQuestion: \x7bquery\x7d"`. -/
def userMessage (query context : String) : String :=
  "Context:\n" ++ context ++ "\n\nQuestion: " ++ query

/-- Function get_ai_response (src/streamlit_ui.py lines 76-89): one
chat-completion call with the fixed system message and the templated
user message, returning `response.choices[0].message.content`; on any
exception (the call raising, or indexing empty `choices`) return
`f"Error: \x7bstr(e)\x7d"`. -/
def get_ai_response (env : Env) (query context : String) :
    String × List Call :=
  let model := env.llmModel.getD "gpt-4o-mini"
  let messages := [("system", systemPrompt), ("user", userMessage query context)]
  let calls := [Call.chat model messages]
  match env.chatOutcome with
  | .ok choices =>
    match choices.head? with
    | some content => (content, calls)
    | none => ("Error: list index out of range", calls)
  | .error e => ("Error: " ++ e, calls)

/-- The fixed not-found message of `process_query`. -/
def notFoundMessage : String :=
  "I couldn't find any relevant information in the documentation."

/-- One context block `f"Title: \x7bresult['title']\x7d\nContent: \x7bresult['content']\x7d"`. -/
def contextBlock (d : Doc) : String :=
  "Title: " ++ d.title ++ "\nContent: " ++ d.content

/-- The context assembly of `process_query` (src/streamlit_ui.py lines
100-103): `"\n\n".join(blocks)` over the results in input order. -/
def assembleContext (results : List Doc) : String :=
  String.intercalate "\n\n" (results.map contextBlock)

/-- Function process_query (src/streamlit_ui.py lines 91-106): search the docs;
on a falsy result (`None` or `[]`) return the fixed not-found message,
otherwise assemble the context and return `get_ai_response`'s value. -/
def process_query (env : Env) (query : String) : String × List Call :=
  let (results, scalls) := search_docs env query
  match results with
  | none => (notFoundMessage, scalls)
  | some docs =>
    if docs.isEmpty then (notFoundMessage, scalls)
    else
      let context := assembleContext docs
      let (answer, acalls) := get_ai_response env query context
      (answer, scalls ++ acalls)

/-- Is a call a vector-store RPC? -/
def isRpcCall : Call → Bool
  | .rpc _ _ _ _ => true
  | _ => false

/-- Is a call a chat-completion call? -/
def isChatCall : Call → Bool
  | .chat _ _ => true
  | _ => false


/-- Tail of a separator-join: the suffix contributed by the remaining
strings, each preceded by the separator. -/
def joinRest (s : String) : List String → String
  | [] => ""
  | a :: as => s ++ a ++ joinRest s as

theorem intercalate_go_eq (s : String) (l : List String) :
    ∀ acc, String.intercalate.go acc s l = acc ++ joinRest s l := by
  induction l with
  | nil => intro acc; simp [String.intercalate.go, joinRest]
  | cons a as ih =>
    intro acc
    simp [String.intercalate.go, joinRest, ih, String.append_assoc]

theorem intercalate_cons (s a : String) (l : List String) :
    String.intercalate s (a :: l) = a ++ joinRest s l := by
  simp [String.intercalate, intercalate_go_eq]

theorem get_embedding_calls (env : Env) (t : String) :
    (get_embedding env t).2 = [Call.embed "text-embedding-3-small" t] := by
  unfold get_embedding
  rcases env.embedOutcome with m | data
  · rfl
  · rcases h : data.head? with _ | e <;> simp only [h]

theorem get_embedding_fst_error (env : Env) (t m : String)
    (h : env.embedOutcome = Except.error m) :
    (get_embedding env t).1 = List.replicate 1536 0 := by
  unfold get_embedding
  rw [h]

theorem search_docs_fst (env : Env) (q : String) (mc : Nat) :
    (search_docs env q mc).1 =
      (match env.rpcOutcome with
       | .ok d => d
       | .error _ => some []) := by
  unfold search_docs
  rcases env.rpcOutcome with m | d <;> simp

theorem search_docs_calls (env : Env) (q : String) (mc : Nat) :
    (search_docs env q mc).2 =
      (get_embedding env q).2 ++
        [Call.rpc "match_site_pages" (get_embedding env q).1 mc "ultravox_docs"] := by
  unfold search_docs
  rcases env.rpcOutcome with m | d <;> simp

theorem get_ai_response_calls (env : Env) (q c : String) :
    (get_ai_response env q c).2 =
      [Call.chat (env.llmModel.getD "gpt-4o-mini")
        [("system", systemPrompt), ("user", userMessage q c)]] := by
  unfold get_ai_response
  rcases env.chatOutcome with m | choices
  · rfl
  · rcases choices with _ | ⟨c, cs⟩ <;> rfl

theorem process_query_fst (env : Env) (q : String) :
    (process_query env q).1 =
      (match (search_docs env q).1 with
       | none => notFoundMessage
       | some docs =>
         if docs.isEmpty then notFoundMessage
         else (get_ai_response env q (assembleContext docs)).1) := by
  unfold process_query
  rcases h : search_docs env q with ⟨r, s⟩
  rcases r with _ | docs
  · simp
  · by_cases hd : docs.isEmpty <;> simp [hd]

theorem process_query_calls (env : Env) (q : String) :
    (process_query env q).2 =
      (match (search_docs env q).1 with
       | none => (search_docs env q).2
       | some docs =>
         if docs.isEmpty then (search_docs env q).2
         else (search_docs env q).2 ++
           (get_ai_response env q (assembleContext docs)).2) := by
  unfold process_query
  rcases h : search_docs env q with ⟨r, s⟩
  rcases r with _ | docs
  · simp
  · by_cases hd : docs.isEmpty <;> simp [hd]

theorem process_query_rpc_filter (env : Env) (q : String) :
    ((process_query env q).2.filter isRpcCall) =
      [Call.rpc "match_site_pages" (get_embedding env q).1 5 "ultravox_docs"] := by
  rw [process_query_calls]
  rcases (search_docs env q).1 with _ | docs
  · simp [search_docs_calls, get_embedding_calls, isRpcCall]
  · by_cases hd : docs.isEmpty <;>
      simp [hd, search_docs_calls, get_embedding_calls, get_ai_response_calls,
        isRpcCall, List.filter_append]

theorem error_prefix_ne_empty (e : String) : "Error: " ++ e ≠ "" := by
  intro h
  have hl := congrArg String.length h
  simp [String.length_append] at hl
  exact absurd hl.1 (by decide)


theorem get_ai_response_fst (env : Env) (q c : String) :
    (get_ai_response env q c).1 =
      (match env.chatOutcome with
       | .ok choices =>
         (match choices.head? with
          | some content => content
          | none => "Error: list index out of range")
       | .error e => "Error: " ++ e) := by
  unfold get_ai_response
  rcases env.chatOutcome with m | choices
  · rfl
  · rcases h : choices.head? with _ | c2 <;> simp [h]

/-- Environment of the counterexample to claim C1: every RPC succeeds,
retrieval finds one document, and the chat model's first completion has
empty text content. -/
def cenvC1 : Env :=
  ⟨Except.ok [[]], Except.ok (some [⟨"T", "C"⟩]), Except.ok [""], none⟩

/-- C1, counterexample: with a non-empty query, a successful retrieval
of one document and a successful generation call whose first
completion's text is the empty string, `process_query` returns the
empty string — so the claim's "returns a non-empty string" fails as
stated. -/
theorem claim_C1_cex :
    ¬ ("q" = "") ∧ (process_query cenvC1 "q").1 = "" := by
  exact ⟨by decide, rfl⟩

/-- C1 (amended): for every query and every outcome of the three
external calls, `process_query` returns a string (it is a total
function, so it never raises), and that string is non-empty unless the
generation call succeeded and the model's first completion text is
itself the empty string. -/
theorem claim_C1 (env : Env) (query : String) :
    (process_query env query).1 ≠ "" ∨
      ∃ cs, env.chatOutcome = Except.ok ("" :: cs) := by
  rw [process_query_fst]
  rcases hs : (search_docs env query).1 with _ | docs
  · exact Or.inl (by show notFoundMessage ≠ ""; decide)
  · show (if docs.isEmpty = true then notFoundMessage
        else (get_ai_response env query (assembleContext docs)).1) ≠ "" ∨
      ∃ cs, env.chatOutcome = Except.ok ("" :: cs)
    by_cases hd : docs.isEmpty
    · rw [if_pos hd]
      exact Or.inl (by show notFoundMessage ≠ ""; decide)
    · rw [if_neg hd]
      rw [get_ai_response_fst]
      rcases hc : env.chatOutcome with m | choices
      · exact Or.inl (error_prefix_ne_empty m)
      · rcases choices with _ | ⟨c, cs⟩
        · exact Or.inl (by show "Error: list index out of range" ≠ ""; decide)
        · by_cases hc0 : c = ""
          · subst hc0
            exact Or.inr ⟨cs, rfl⟩
          · exact Or.inl (by show c ≠ ""; exact hc0)

/-- C2: if `search_docs` yields the empty sequence, `process_query`
returns exactly the fixed not-found message and no chat-completion call
appears in the trace (the answer generator is never invoked). -/
theorem claim_C2 (env : Env) (query : String)
    (h : (search_docs env query).1 = some []) :
    (process_query env query).1 = notFoundMessage ∧
      ∀ m msgs, Call.chat m msgs ∉ (process_query env query).2 := by
  constructor
  · rw [process_query_fst, h]
    simp
  · intro m msgs
    rw [process_query_calls, h]
    simp [search_docs_calls, get_embedding_calls]

/-- Environment for the C2 witness: retrieval succeeds with an empty
result list. -/
def cenvC2 : Env :=
  ⟨Except.ok [[]], Except.ok (some []), Except.ok ["hi"], none⟩

theorem claim_C2_witness :
    (search_docs cenvC2 "q").1 = some [] ∧
      ((process_query cenvC2 "q").1 = notFoundMessage ∧
        ∀ m msgs, Call.chat m msgs ∉ (process_query cenvC2 "q").2) :=
  ⟨rfl, claim_C2 cenvC2 "q" rfl⟩

/-- C3: if the external embedding call raises, `get_embedding` returns
(rather than raising) the all-zero vector of length 1536, and the
pipeline still performs exactly one vector-store RPC, passing that zero
vector as `query_embedding` (with `match_count = 5` and the fixed
source filter). -/
theorem claim_C3 (env : Env) (text query m : String)
    (h : env.embedOutcome = Except.error m) :
    (get_embedding env text).1 = List.replicate 1536 0 ∧
      (get_embedding env text).1.length = 1536 ∧
      (∀ x ∈ (get_embedding env text).1, x = 0) ∧
      ((process_query env query).2.filter isRpcCall) =
        [Call.rpc "match_site_pages" (List.replicate 1536 0) 5 "ultravox_docs"] := by
  have hz := get_embedding_fst_error env text m h
  have hzq := get_embedding_fst_error env query m h
  refine ⟨hz, ?_, ?_, ?_⟩
  · rw [hz, List.length_replicate]
  · intro x hx
    rw [hz] at hx
    exact List.eq_of_mem_replicate hx
  · rw [process_query_rpc_filter, hzq]

/-- Environment for the C3 witness: the embedding call raises. -/
def cenvC3 : Env :=
  ⟨Except.error "boom", Except.ok (some []), Except.ok [], none⟩

theorem claim_C3_witness :
    cenvC3.embedOutcome = Except.error "boom" ∧
      ((get_embedding cenvC3 "t").1 = List.replicate 1536 0 ∧
        (get_embedding cenvC3 "t").1.length = 1536 ∧
        (∀ x ∈ (get_embedding cenvC3 "t").1, x = 0) ∧
        ((process_query cenvC3 "q").2.filter isRpcCall) =
          [Call.rpc "match_site_pages" (List.replicate 1536 0) 5 "ultravox_docs"]) :=
  ⟨rfl, claim_C3 cenvC3 "t" "q" "boom" rfl⟩

/-- C4: the context is assembled purely and in input order — the empty
list gives the empty context, a singleton gives its own block, each
further document appends a blank line and its block, with no
reordering, re-ranking or truncation; on the two documents (A, x) and
(B, y) the result is exactly the expected string. -/
theorem claim_C4 :
    assembleContext [⟨"A", "x"⟩, ⟨"B", "y"⟩] =
        "Title: A\nContent: x\n\nTitle: B\nContent: y" ∧
      assembleContext [] = "" ∧
      (∀ d, assembleContext [d] = contextBlock d) ∧
      (∀ d d2 ds, assembleContext (d :: d2 :: ds) =
        contextBlock d ++ "\n\n" ++ assembleContext (d2 :: ds)) := by
  refine ⟨rfl, rfl, ?_, ?_⟩
  · intro d
    simp [assembleContext, intercalate_cons, joinRest]
  · intro d d2 ds
    simp [assembleContext, intercalate_cons, joinRest, String.append_assoc]

/-- C5: if the external chat-completion call raises with message m,
`get_ai_response` returns (rather than raising) the string "Error: "
followed by m. -/
theorem claim_C5 (env : Env) (query context m : String)
    (h : env.chatOutcome = Except.error m) :
    (get_ai_response env query context).1 = "Error: " ++ m := by
  rw [get_ai_response_fst, h]

/-- Environment for the C5 witness: the chat-completion call raises
with message "rate limited". -/
def cenvC5 : Env :=
  ⟨Except.ok [[]], Except.ok (some []), Except.error "rate limited", none⟩

theorem claim_C5_witness :
    cenvC5.chatOutcome = Except.error "rate limited" ∧
      (get_ai_response cenvC5 "q" "c").1 = "Error: rate limited" :=
  ⟨rfl, by rw [claim_C5 cenvC5 "q" "c" "rate limited" rfl]; decide⟩

/-- C6: an exception of the vector-store call is converted into the
empty sequence, never raised; `process_query` then returns the fixed
not-found message, so a failed retrieval RPC and a successful one that
finds nothing produce identical output — the two causes are
indistinguishable to the caller. -/
theorem claim_C6 (env env2 : Env) (query m : String)
    (h : env.rpcOutcome = Except.error m)
    (h2 : env2.rpcOutcome = Except.ok (some [])) :
    (search_docs env query).1 = some [] ∧
      (process_query env query).1 = notFoundMessage ∧
      (process_query env query).1 = (process_query env2 query).1 := by
  have hs : (search_docs env query).1 = some [] := by
    rw [search_docs_fst, h]
  have hs2 : (search_docs env2 query).1 = some [] := by
    rw [search_docs_fst, h2]
  have hp : (process_query env query).1 = notFoundMessage := by
    rw [process_query_fst, hs]
    simp
  have hp2 : (process_query env2 query).1 = notFoundMessage := by
    rw [process_query_fst, hs2]
    simp
  exact ⟨hs, hp, hp.trans hp2.symm⟩

/-- Environments for the C6 witness: a failing retrieval RPC, and a
successful one returning the empty list. -/
def cenvC6a : Env :=
  ⟨Except.ok [[]], Except.error "store unavailable", Except.ok ["hi"], none⟩

def cenvC6b : Env :=
  ⟨Except.ok [[]], Except.ok (some []), Except.ok ["hi"], none⟩

theorem claim_C6_witness :
    cenvC6a.rpcOutcome = Except.error "store unavailable" ∧
      cenvC6b.rpcOutcome = Except.ok (some []) ∧
      ((search_docs cenvC6a "q").1 = some [] ∧
        (process_query cenvC6a "q").1 = notFoundMessage ∧
        (process_query cenvC6a "q").1 = (process_query cenvC6b "q").1) :=
  ⟨rfl, rfl, claim_C6 cenvC6a cenvC6b "q" "store unavailable" rfl rfl⟩

/-- C7: if retrieval succeeds with a non-empty document list and the
generation call succeeds, `process_query` returns exactly the first
completion's text content, unmodified. -/
theorem claim_C7 (env : Env) (query : String) (docs : List Doc)
    (c : String) (cs : List String)
    (hr : env.rpcOutcome = Except.ok (some docs)) (hne : docs ≠ [])
    (hc : env.chatOutcome = Except.ok (c :: cs)) :
    (process_query env query).1 = c := by
  have hs : (search_docs env query).1 = some docs := by
    rw [search_docs_fst, hr]
  rw [process_query_fst, hs]
  simp only [List.isEmpty_iff, hne, if_false]
  rw [get_ai_response_fst, hc]
  rfl

/-- Environment for the C7 witness: retrieval finds one document and
generation succeeds with text "the answer". -/
def cenvC7 : Env :=
  ⟨Except.ok [[]], Except.ok (some [⟨"T", "C"⟩]),
    Except.ok ["the answer", "unused"], none⟩

theorem claim_C7_witness :
    cenvC7.rpcOutcome = Except.ok (some [⟨"T", "C"⟩]) ∧
      ([Doc.mk "T" "C"] ≠ ([] : List Doc)) ∧
      cenvC7.chatOutcome = Except.ok ["the answer", "unused"] ∧
      (process_query cenvC7 "q").1 = "the answer" :=
  ⟨rfl, by decide, rfl,
    claim_C7 cenvC7 "q" [⟨"T", "C"⟩] "the answer" ["unused"] rfl (by decide) rfl⟩

/-- C8: on every query and every outcome of the external calls, the
pipeline performs exactly one vector-store RPC, named
"match_site_pages", with `match_count = 5`, the fixed source filter
"ultravox_docs", and the query's embedding vector as
`query_embedding`. -/
theorem claim_C8 (env : Env) (query : String) :
    ((process_query env query).2.filter isRpcCall) =
      [Call.rpc "match_site_pages" (get_embedding env query).1 5 "ultravox_docs"] :=
  process_query_rpc_filter env query

/-- C9: `get_ai_response` issues exactly one chat-completion call,
whose message list is the fixed system message followed by one user
message holding the fixed template around context and query; and the
returned answer depends only on the first candidate completion (two
environments agreeing on the first candidate yield the same answer). -/
theorem claim_C9 (env : Env) (query context : String) :
    (get_ai_response env query context).2 =
      [Call.chat (env.llmModel.getD "gpt-4o-mini")
        [("system", systemPrompt),
          ("user", "Context:\n" ++ context ++ "\n\nQuestion: " ++ query)]] ∧
      (∀ env2 c cs cs2, env.chatOutcome = Except.ok (c :: cs) →
        env2.chatOutcome = Except.ok (c :: cs2) →
        (get_ai_response env2 query context).1 =
          (get_ai_response env query context).1) := by
  constructor
  · rw [get_ai_response_calls]
    rfl
  · intro env2 c cs cs2 hc hc2
    rw [get_ai_response_fst, get_ai_response_fst, hc, hc2]
    rfl

/-- Environments for the C9 witness: same first candidate "a",
different tails. -/
def cenvC9a : Env :=
  ⟨Except.ok [[]], Except.ok (some []), Except.ok ["a", "b"], none⟩

def cenvC9b : Env :=
  ⟨Except.ok [[]], Except.ok (some []), Except.ok ["a"], some "other-model"⟩

theorem claim_C9_witness :
    cenvC9a.chatOutcome = Except.ok ["a", "b"] ∧
      cenvC9b.chatOutcome = Except.ok ["a"] ∧
      (get_ai_response cenvC9b "q" "c").1 = (get_ai_response cenvC9a "q" "c").1 :=
  ⟨rfl, rfl, (claim_C9 cenvC9a "q" "c").2 cenvC9b "a" ["b"] [] rfl rfl⟩

/-- C10: the orchestrator's empty check tests falsiness — a successful
retrieval RPC whose data payload is `None` is returned unchanged by
`search_docs` and sends `process_query` down the same not-found branch
as an empty list; in general every falsy retrieval result (`None` or
the empty list) yields the fixed not-found message. -/
theorem claim_C10 (env : Env) (query : String)
    (h : env.rpcOutcome = Except.ok none) :
    (search_docs env query).1 = none ∧
      (process_query env query).1 = notFoundMessage ∧
      ∀ env2, ((search_docs env2 query).1 = none ∨
          (search_docs env2 query).1 = some []) →
        (process_query env2 query).1 = notFoundMessage := by
  have hgen : ∀ env2 : Env, ((search_docs env2 query).1 = none ∨
      (search_docs env2 query).1 = some []) →
      (process_query env2 query).1 = notFoundMessage := by
    intro env2 h2
    rcases h2 with h2 | h2
    · rw [process_query_fst, h2]
    · rw [process_query_fst, h2]
      simp
  have hs : (search_docs env query).1 = none := by
    rw [search_docs_fst, h]
  exact ⟨hs, hgen env (Or.inl hs), hgen⟩

/-- Environment for the C10 witness: the retrieval RPC succeeds with a
`None` data payload. -/
def cenvC10 : Env :=
  ⟨Except.ok [[]], Except.ok none, Except.ok ["hi"], none⟩

theorem claim_C10_witness :
    cenvC10.rpcOutcome = Except.ok none ∧
      ((search_docs cenvC10 "q").1 = none ∧
        (process_query cenvC10 "q").1 = notFoundMessage ∧
        ∀ env2, ((search_docs env2 "q").1 = none ∨
            (search_docs env2 "q").1 = some []) →
          (process_query env2 "q").1 = notFoundMessage) :=
  ⟨rfl, claim_C10 cenvC10 "q" rfl⟩

end UltraDocs
